import Mathlib

/-!
Verification of the Jira-to-GitHub orchestrator (functions/index.js).

The two cloud-function handlers are embedded as pure functions from an
explicit environment (the responses of the outbound HTTP calls and the
incoming request data) to a response value plus a record of which outbound
steps were performed.  JavaScript strings are modelled as lists of
characters (`Str`), JavaScript `undefined`-or-string values as `Option Str`,
and JavaScript truthiness on strings as `jsTruthy` (both `undefined` and
the empty string are falsy).
-/

/-- JavaScript strings are modelled as lists of characters. -/
abbrev Str := List Char

/-- Truthiness of a JavaScript string-or-undefined value: `undefined` and
the empty string are falsy, every other string is truthy. -/
def jsTruthy : Option Str → Bool
  | none => false
  | some s => !s.isEmpty

/-- JavaScript `a || b` on string-or-undefined values. -/
def jsStrOr (a b : Option Str) : Option Str :=
  if jsTruthy a then a else b

/-- Models `String.prototype.toLowerCase` (the handler only compares
ASCII transition names, for which `Char.toLower` agrees). -/
def lowerStr (s : Str) : Str := s.map Char.toLower

/-- Models `hay.includes(needle)` for JavaScript strings: substring test. -/
def includes : Str → Str → Bool
  | [], needle => needle.isEmpty
  | c :: rest, needle => needle.isPrefixOf (c :: rest) || includes rest needle

/-- Models `String.prototype.trim`. -/
def jsTrim (s : Str) : Str :=
  ((s.dropWhile Char.isWhitespace).reverse.dropWhile Char.isWhitespace).reverse

/-- Fuel-indexed scanner for `stripHtml`; the fuel is an upper bound on the
number of characters still to be examined, so `fuel = length` suffices. -/
def stripHtmlAux : Nat → Str → Str
  | 0, _ => []
  | _ + 1, [] => []
  | fuel + 1, c :: rest =>
    if c = '<' then
      let inner := rest.takeWhile (fun d => !(d = '>'))
      let tail := rest.dropWhile (fun d => !(d = '>'))
      if inner.isEmpty then c :: stripHtmlAux fuel rest
      else
        match tail with
        | '>' :: tail2 => stripHtmlAux fuel tail2
        | _ => c :: stripHtmlAux fuel rest
    else c :: stripHtmlAux fuel rest

/-- Models `(html || "").replace(/<[^>]+>/g, "").trim()` from the comment
rendering code: every maximal `<`…`>` run with a nonempty interior is
removed, then the result is trimmed. -/
def stripHtml (html : Option Str) : Str :=
  let h := (jsStrOr html (some [])).getD []
  jsTrim (stripHtmlAux h.length h)

/-! ## Jira comment model and rendering (the body of the comment fetch) -/

/-- The `author` object of a fetched Jira comment; absent string fields are
`none`, and an empty string is distinct from an absent one. -/
structure CommentAuthor where
  displayName : Option Str
  name : Option Str
deriving DecidableEq, Repr

/-- A fetched Jira comment as the handler reads it from the parsed JSON:
`body` is `some s` exactly when the raw `body` field is a string. -/
structure RawComment where
  author : Option CommentAuthor
  created : Option Str
  renderedBody : Option Str
  body : Option Str
deriving DecidableEq, Repr

/-- Models `(c.author && (c.author.displayName || c.author.name)) || "unknown"`. -/
def authorOf (c : RawComment) : Str :=
  let x := match c.author with
    | none => none
    | some a => jsStrOr a.displayName a.name
  if jsTruthy x then x.getD [] else ("unknown").toList

/-- Models `c.created ? c.created.substring(0, 10) : ""`. -/
def createdOf (c : RawComment) : Str :=
  if jsTruthy c.created then (c.created.getD []).take 10 else []

/-- Models the body selection
`c.renderedBody ? stripHtml(c.renderedBody) : (typeof c.body === "string" ? c.body : "")`. -/
def bodyTextOf (c : RawComment) : Str :=
  if jsTruthy c.renderedBody then stripHtml c.renderedBody else c.body.getD []

/-- Models the preview truncation
`body.length > 1000 ? body.substring(0, 1000) + ellipsis : body`. -/
def previewOf (b : Str) : Str :=
  if 1000 < b.length then b.take 1000 ++ ['…'] else b

/-- Models the bullet line built for one comment:
`- author (date):\n  preview`. -/
def renderComment (c : RawComment) : Str :=
  ("- ").toList ++ authorOf c ++ (" (").toList ++ createdOf c
    ++ ("):\n  ").toList ++ previewOf (bodyTextOf c)

/-- Outcome of the comment-fetch HTTP call, as seen by the handler:
either the transport threw, or a response with a status arrived and (when
`ok`) was parsed into a list of comments (`commentsJson.comments || []`). -/
inductive CommentFetchOutcome where
  | throws (message : Str)
  | responds (ok : Bool) (status : Nat) (comments : List RawComment)
deriving DecidableEq, Repr

/-- Value of the `commentsMarkdown` variable after the guarded comment-fetch
block: it keeps its initializer on any failure or when no comments exist,
and otherwise joins the rendered comments with blank lines. -/
def commentsMarkdownOf : CommentFetchOutcome → Str
  | .throws _ => ("_No comments_").toList
  | .responds ok _ comments =>
    if ok then
      if comments.isEmpty then ("_No comments_").toList
      else List.intercalate (("\n\n").toList) (comments.map renderComment)
    else ("_No comments_").toList

/-! ## Transition helper (`transitionJiraIssue`) -/

/-- One entry of the `transitions` array returned by the Jira API. -/
structure Transition where
  id : Str
  name : Str
deriving DecidableEq, Repr

/-- Result object of `transitionJiraIssue`, one constructor per `return`. -/
inductive TransitionResult where
  | exception (message : Str)
  | fetchFailed (status : Nat)
  | notFound (available : List Str)
  | postFailed (status : Nat) (details : Str)
  | applied (transitionName : Str)
deriving DecidableEq, Repr

/-- The `success` field of a `transitionJiraIssue` result. -/
def TransitionResult.isSuccess : TransitionResult → Bool
  | .applied _ => true
  | _ => false

/-- Upstream behaviour seen by `transitionJiraIssue`: the transition-list
GET, the transition POST, and whether the transport threw. -/
structure TransitionEnv where
  throwsEx : Bool
  exMessage : Str
  fetchOk : Bool
  fetchStatus : Nat
  transitions : List Transition
  postOk : Bool
  postStatus : Nat
  postErrorText : Str
deriving DecidableEq, Repr

/-- Models the inner predicate
`targetNames.some(name => t.name.toLowerCase().includes(name.toLowerCase()))`. -/
def matchesAnyFragment (targetNames : List Str) (t : Transition) : Bool :=
  targetNames.any fun nm => includes (lowerStr t.name) (lowerStr nm)

/-- Models the selection
`transitions.find(t => targetNames.some(name => t.name.toLowerCase().includes(name.toLowerCase())))`. -/
def matchTransition (targetNames : List Str) (transitions : List Transition) :
    Option Transition :=
  transitions.find? (matchesAnyFragment targetNames)

/-- Embedding of `transitionJiraIssue`: fetch the available transitions,
pick the first listed transition whose name contains one of the target
fragments, apply it, reporting each failure mode as its own result. -/
def transitionJiraIssue (env : TransitionEnv) (targetNames : List Str) :
    TransitionResult :=
  if env.throwsEx then .exception env.exMessage
  else if !env.fetchOk then .fetchFailed env.fetchStatus
  else
    match matchTransition targetNames env.transitions with
    | none => .notFound (env.transitions.map fun t => t.name)
    | some t => if !env.postOk then .postFailed env.postStatus env.postErrorText
                else .applied t.name

/-- The target-name fragment list passed by the implementation handler. -/
def targetNamesImpl : List Str :=
  [("in progress").toList, ("start progress").toList, ("begin").toList,
   ("start work").toList, ("working").toList]

/-! ## Issue title and body composition -/

/-- Models `description || "(no description)"` inside the body arrays. -/
def descOr (d : Option Str) : Str :=
  if jsTruthy d then d.getD [] else ("(no description)").toList

/-- Browse URL `${JIRA_BASE}/browse/${issueKey}`. -/
def jiraBrowseUrl (jiraBase issueKey : Str) : Str :=
  jiraBase ++ ("/browse/").toList ++ issueKey

/-- Issue title of the implementation flow: `${issueKey}: ${summary}`. -/
def implTitle (issueKey summary : Str) : Str :=
  issueKey ++ (": ").toList ++ summary

/-- Issue title of the research flow: `${issueKey}: [AI Research] ${summary}`. -/
def researchTitle (issueKey summary : Str) : Str :=
  issueKey ++ (": [AI Research] ").toList ++ summary

/-- Issue body of the implementation flow: the literal line array joined
with newlines. -/
def composeImplBody (description : Option Str) (commentsMarkdown jiraUrl : Str) : Str :=
  List.intercalate (("\n").toList)
    [("@claude implement this:").toList,
     [],
     ("## Jira Description").toList,
     descOr description,
     [],
     ("## Jira Comments").toList,
     commentsMarkdown,
     [],
     ("## Source").toList,
     ("- Jira: ").toList ++ jiraUrl]

/-- Issue body of the research flow: the literal line array joined with
newlines, with the extra instructions section. -/
def composeResearchBody (description : Option Str) (commentsMarkdown jiraUrl : Str) : Str :=
  List.intercalate (("\n").toList)
    [("@claude research this:").toList,
     [],
     ("## Jira Description").toList,
     descOr description,
     [],
     ("## Jira Comments").toList,
     commentsMarkdown,
     [],
     ("## Source").toList,
     ("- Jira: ").toList ++ jiraUrl,
     [],
     ("## Instructions").toList,
     ("Research the codebase and create a detailed implementation plan for this ticket.").toList,
     ("The plan should be written back to the Jira ticket description.").toList,
     ("After completing the research, move the ticket back to \"To Do\" and unassign it.").toList]

/-! ## Dedup search queries -/

/-- Query string of the implementation-flow dedup search
(`q=${issueKey}+repo:${owner}/${name}+type:issue`). -/
def implSearchQuery (issueKey owner name : Str) : Str :=
  issueKey ++ ("+repo:").toList ++ owner ++ ("/").toList ++ name
    ++ ("+type:issue").toList

/-- Query string of the research-flow dedup search
(`q=${issueKey}+repo:${owner}/${name}+type:issue+label:ai-research+state:open`). -/
def researchSearchQuery (issueKey owner name : Str) : Str :=
  issueKey ++ ("+repo:").toList ++ owner ++ ("/").toList ++ name
    ++ ("+type:issue+label:ai-research+state:open").toList

/-- An issue already present in the hosting tracker, abstracted to the
attributes the two dedup queries filter on. -/
structure HostedIssue where
  mentionsKey : Bool
  inRepo : Bool
  isIssue : Bool
  labels : List Str
  isOpen : Bool
deriving DecidableEq, Repr

/-- Modelled from the spec: GitHub issue-search semantics for the
implementation-flow query built at the dedup call, which filters by key
text, repository and `type:issue` only (the search API itself is outside
this repository). -/
def matchesImplSearch (i : HostedIssue) : Bool :=
  i.mentionsKey && i.inRepo && i.isIssue

/-- Modelled from the spec: GitHub issue-search semantics for the
research-flow query, which adds `label:ai-research` and `state:open` to
the implementation-flow filters. -/
def matchesResearchSearch (i : HostedIssue) : Bool :=
  matchesImplSearch i && i.labels.contains (("ai-research").toList) && i.isOpen

/-! ## The two request handlers -/

/-- Environment of one handler invocation: the incoming request plus the
behaviour of every outbound call the handler may make.  `providedSecret`
is the `x-webhook-secret` header (`none` when absent), the four body
fields are `none` when absent from the JSON body, and the search / create
fields describe the GitHub responses. -/
structure OrchEnv where
  method : Str
  providedSecret : Option Str
  webhookSecret : Str
  issueKey : Option Str
  summary : Option Str
  description : Option Str
  repo : Option Str
  jiraBase : Str
  searchOk : Bool
  searchTotalCount : Nat
  searchItems : List Nat
  commentFetch : CommentFetchOutcome
  ghOk : Bool
  ghErrorText : Str
  ghIssueNumber : Nat
  ghIssueUrl : Str
  tEnv : TransitionEnv
deriving DecidableEq, Repr

/-- Models `providedSecret && providedSecret !== WEBHOOK_SECRET.value()`:
JavaScript truthiness means an absent or empty header skips the check. -/
def secretMismatch (provided : Option Str) (secret : Str) : Bool :=
  match provided with
  | none => false
  | some s => !s.isEmpty && !(s = secret : Bool)

/-- Responses the handlers can produce, one constructor per `return`. -/
inductive Resp where
  | methodNotAllowed
  | invalidSecret
  | missingFields (required : List Str)
  | skippedExists (reason : Str) (issueNumber : Nat)
  | githubRequestFailed (details : Str)
  | implSuccess (issueNumber : Nat) (issueUrl : Str) (jiraTransition : TransitionResult)
  | researchSuccess (issueNumber : Nat) (issueUrl : Str) (action : Str)
  | internalError (message : Str)
deriving DecidableEq, Repr

/-- HTTP status of each response (`res.json` without `.status` is 200). -/
def Resp.statusCode : Resp → Nat
  | .methodNotAllowed => 405
  | .invalidSecret => 401
  | .missingFields _ => 400
  | .skippedExists _ _ => 200
  | .githubRequestFailed _ => 502
  | .implSuccess _ _ _ => 200
  | .researchSuccess _ _ _ => 200
  | .internalError _ => 500

/-- The `ok` field of the JSON payload, when the payload carries one. -/
def Resp.okField : Resp → Option Bool
  | .skippedExists _ _ => some true
  | .implSuccess _ _ _ => some true
  | .researchSuccess _ _ _ => some true
  | _ => none

/-- Which outbound steps a handler run performed, and with what creation
payload. -/
structure Effects where
  searched : Bool := false
  fetchedComments : Bool := false
  attemptedCreate : Bool := false
  createdTitle : Option Str := none
  createdBody : Option Str := none
  createdLabels : Option (List Str) := none
  attemptedTransition : Bool := false
  postedComment : Bool := false
deriving DecidableEq, Repr

/-- Embedding of the `jiraOrchestrator` handler: method check, optional
secret check, required-field check, best-effort dedup search, comment
fetch, issue creation, advisory transition, notification, response. -/
def jiraOrchestrator (env : OrchEnv) : Resp × Effects :=
  if !(env.method = ("POST").toList : Bool) then (.methodNotAllowed, {})
  else if secretMismatch env.providedSecret env.webhookSecret then (.invalidSecret, {})
  else if !jsTruthy env.issueKey || !jsTruthy env.summary || !jsTruthy env.repo then
    (.missingFields [("issueKey").toList, ("summary").toList, ("repo").toList], {})
  else
    let fx0 : Effects := { searched := true }
    if env.searchOk = true ∧ 0 < env.searchTotalCount then
      match env.searchItems.head? with
      | some n => (.skippedExists (("issue_exists").toList) n, fx0)
      | none =>
        (.internalError (("TypeError: Cannot read properties of undefined").toList), fx0)
    else
      let key := env.issueKey.getD []
      let cm := commentsMarkdownOf env.commentFetch
      let issueBody := composeImplBody env.description cm (jiraBrowseUrl env.jiraBase key)
      let fx1 : Effects :=
        { fx0 with
          fetchedComments := true, attemptedCreate := true,
          createdTitle := some (implTitle key (env.summary.getD [])),
          createdBody := some issueBody,
          createdLabels := some [("from-jira").toList, ("ai-task").toList] }
      if !env.ghOk then (.githubRequestFailed env.ghErrorText, fx1)
      else
        let tr := transitionJiraIssue env.tEnv targetNamesImpl
        (.implSuccess env.ghIssueNumber env.ghIssueUrl tr,
          { fx1 with attemptedTransition := true, postedComment := true })

/-- Embedding of the `jiraResearchOrchestrator` handler: same pipeline with
the label-and-state-scoped dedup search, the research title, body and
labels, no transition step, and an `action` field in the response. -/
def jiraResearchOrchestrator (env : OrchEnv) : Resp × Effects :=
  if !(env.method = ("POST").toList : Bool) then (.methodNotAllowed, {})
  else if secretMismatch env.providedSecret env.webhookSecret then (.invalidSecret, {})
  else if !jsTruthy env.issueKey || !jsTruthy env.summary || !jsTruthy env.repo then
    (.missingFields [("issueKey").toList, ("summary").toList, ("repo").toList], {})
  else
    let fx0 : Effects := { searched := true }
    if env.searchOk = true ∧ 0 < env.searchTotalCount then
      match env.searchItems.head? with
      | some n => (.skippedExists (("research_request_exists").toList) n, fx0)
      | none =>
        (.internalError (("TypeError: Cannot read properties of undefined").toList), fx0)
    else
      let key := env.issueKey.getD []
      let cm := commentsMarkdownOf env.commentFetch
      let issueBody := composeResearchBody env.description cm (jiraBrowseUrl env.jiraBase key)
      let fx1 : Effects :=
        { fx0 with
          fetchedComments := true, attemptedCreate := true,
          createdTitle := some (researchTitle key (env.summary.getD [])),
          createdBody := some issueBody,
          createdLabels := some [("from-jira").toList, ("ai-research").toList] }
      if !env.ghOk then (.githubRequestFailed env.ghErrorText, fx1)
      else
        (.researchSuccess env.ghIssueNumber env.ghIssueUrl
            (("research_request_created").toList),
          { fx1 with postedComment := true })

/-! ## Title recovery (the splitting operation named by the round-trip
property) -/

/-- Split a string at the first occurrence of the separator `": "`,
returning the part before it and the part after it. -/
def splitColonSpace : Str → Option (Str × Str)
  | [] => none
  | c :: rest =>
    if c = ':' ∧ rest.head? = some ' ' then some ([], rest.tail)
    else (splitColonSpace rest).map fun p => (c :: p.1, p.2)

/-- Whether the separator `": "` occurs in a string. -/
def hasColonSpace : Str → Bool
  | [] => false
  | c :: rest => (decide (c = ':') && decide (rest.head? = some ' ')) || hasColonSpace rest

/-! ## Concrete example data used by witnesses and counterexamples -/

/-- A transition whose name matches none of the implementation fragments. -/
def exTransitionToDo : Transition :=
  { id := ("11").toList, name := ("To Do").toList }

/-- A fully successful baseline environment: POST, no secret header, all
required fields, dedup miss, successful empty comment fetch, successful
creation, one available transition. -/
def envOkBase : OrchEnv where
  method := ("POST").toList
  providedSecret := none
  webhookSecret := ("shh").toList
  issueKey := some (("SCRUM-7").toList)
  summary := some (("Add login").toList)
  description := some (("Details").toList)
  repo := some (("acme/web").toList)
  jiraBase := ("https://acme.atlassian.net").toList
  searchOk := true
  searchTotalCount := 0
  searchItems := []
  commentFetch := .responds true 200 []
  ghOk := true
  ghErrorText := []
  ghIssueNumber := 5
  ghIssueUrl := ("https://github.com/acme/web/issues/5").toList
  tEnv :=
    { throwsEx := false, exMessage := [], fetchOk := true, fetchStatus := 200,
      transitions := [exTransitionToDo], postOk := true, postStatus := 200,
      postErrorText := [] }

/-- A transition named "Begin work": it contains the fragment "begin". -/
def tBegin : Transition := { id := ("71").toList, name := ("Begin work").toList }

/-- A transition named "In Progress": it contains the first fragment. -/
def tInProgress : Transition := { id := ("31").toList, name := ("In Progress").toList }

/-- A hosted issue as the research flow creates it: labelled `ai-research`
and open, in the repository, mentioning the ticket key. -/
def researchIssueEx : HostedIssue where
  mentionsKey := true
  inRepo := true
  isIssue := true
  labels := [("from-jira").toList, ("ai-research").toList]
  isOpen := true

/-- A hosted issue as the implementation flow creates it: labelled
`ai-task`, in the repository, mentioning the ticket key. -/
def implIssueEx : HostedIssue where
  mentionsKey := true
  inRepo := true
  isIssue := true
  labels := [("from-jira").toList, ("ai-task").toList]
  isOpen := true

/-- Baseline environment with a dedup hit: the search succeeds with one
matching item, number 7. -/
def envC1 : OrchEnv := { envOkBase with searchTotalCount := 1, searchItems := [7] }

/-- Baseline environment whose issue-creation POST fails. -/
def envC2 : OrchEnv :=
  { envOkBase with ghOk := false, ghErrorText := ("boom").toList }

/-- Baseline environment carrying a present but empty secret header. -/
def envC4x : OrchEnv := { envOkBase with providedSecret := some [] }

/-- Baseline environment carrying a wrong nonempty secret header. -/
def envC4w : OrchEnv :=
  { envOkBase with providedSecret := some (("wrong").toList) }

/-- Baseline environment whose body lacks the `summary` field. -/
def envC5 : OrchEnv := { envOkBase with summary := none }

/-- Baseline environment in which the only existing hosted issue is an
open research-flow issue, and the implementation-flow dedup search reports
exactly the issues matching its own query. -/
def envC8x : OrchEnv :=
  { envOkBase with
    searchTotalCount := (List.filter (fun i => matchesImplSearch i) [researchIssueEx]).length,
    searchItems := [42] }

/-- Baseline environment whose comment fetch returns HTTP 500. -/
def envC9 : OrchEnv :=
  { envOkBase with commentFetch := .responds false 500 [] }

/-! ## Helper lemmas -/

/-- Every list is a prefix of itself followed by anything. -/
theorem isPrefixOf_self_append : ∀ (l t : Str), l.isPrefixOf (l ++ t) = true
  | [], _ => by simp [List.isPrefixOf]
  | c :: l', t => by simp [List.isPrefixOf, isPrefixOf_self_append l' t]

/-- A string always includes any substring that it can be decomposed
around. -/
theorem includes_around (n pre post : Str) : includes (pre ++ (n ++ post)) n = true := by
  induction pre with
  | nil =>
    cases n with
    | nil =>
      cases post with
      | nil => rfl
      | cons c r => simp [includes, List.isPrefixOf]
    | cons a n' =>
      show includes ((a :: n') ++ post) (a :: n') = true
      rw [List.cons_append, includes]
      have h : (a :: n').isPrefixOf (a :: n' ++ post) = true :=
        isPrefixOf_self_append (a :: n') post
      simp [h]
  | cons c pre' ih =>
    simp [includes, ih]

/-- The composed implementation-flow body decomposes around its comments
section, whatever the description and URL are. -/
theorem composeImplBody_parts (d : Option Str) (cm url : Str) :
    ∃ pre post, composeImplBody d cm url = pre ++ (cm ++ post) := by
  refine ⟨("@claude implement this:").toList ++ ("\n").toList ++ ("\n").toList
    ++ ("## Jira Description").toList ++ ("\n").toList ++ descOr d ++ ("\n").toList
    ++ ("\n").toList ++ ("## Jira Comments").toList ++ ("\n").toList, ?_, ?_⟩
  · exact ("\n").toList ++ ("\n").toList ++ ("## Source").toList ++ ("\n").toList
      ++ ("- Jira: ").toList ++ url
  · simp [composeImplBody, List.intercalate, List.intersperse, List.flatten,
      List.append_assoc]

/-- Splitting at the first `": "` recovers the two halves whenever the
left half does not contain the separator. -/
theorem splitColonSpace_append (k rest : Str) (h : hasColonSpace k = false) :
    splitColonSpace (k ++ ':' :: ' ' :: rest) = some (k, rest) := by
  induction k with
  | nil => simp [splitColonSpace]
  | cons c k' ih =>
    rw [hasColonSpace, Bool.or_eq_false_iff] at h
    have hcond : ¬(c = ':' ∧ (k' ++ ':' :: ' ' :: rest).head? = some ' ') := by
      rintro ⟨rfl, hh⟩
      cases k' with
      | nil => simp at hh
      | cons d k'' =>
        simp at hh
        subst hh
        simp at h
    rw [List.cons_append, splitColonSpace, if_neg hcond, ih h.2]
    rfl

/-! ## Claims -/

/-- C1: for every POST request that passes validation, if the dedup search
returns a successful HTTP status with a positive `total_count`, both
handlers return an overall-success `skipped:true` response carrying the
first search item's number, and neither calls issue creation. -/
theorem c1_dedup_hit_skips_creation (env : OrchEnv) (n : Nat)
    (hm : env.method = ("POST").toList)
    (hs : secretMismatch env.providedSecret env.webhookSecret = false)
    (hk : jsTruthy env.issueKey = true)
    (hsum : jsTruthy env.summary = true)
    (hr : jsTruthy env.repo = true)
    (hok : env.searchOk = true)
    (hc : 0 < env.searchTotalCount)
    (hi : env.searchItems.head? = some n) :
    jiraOrchestrator env
        = (.skippedExists (("issue_exists").toList) n, { searched := true })
      ∧ (jiraOrchestrator env).2.attemptedCreate = false
      ∧ (jiraOrchestrator env).1.okField = some true
      ∧ (jiraOrchestrator env).1.statusCode = 200
      ∧ jiraResearchOrchestrator env
        = (.skippedExists (("research_request_exists").toList) n, { searched := true })
      ∧ (jiraResearchOrchestrator env).2.attemptedCreate = false := by
  simp [jiraOrchestrator, jiraResearchOrchestrator, hm, hs, hk, hsum, hr, hok, hc, hi,
    Resp.okField, Resp.statusCode]

/-- Witness for C1 at a concrete environment with a dedup hit numbered 7. -/
theorem c1_witness :
    jiraOrchestrator envC1
        = (.skippedExists (("issue_exists").toList) 7, { searched := true })
      ∧ (jiraOrchestrator envC1).2.attemptedCreate = false :=
  let h := c1_dedup_hit_skips_creation envC1 7 rfl rfl rfl rfl rfl rfl
    (by decide) rfl
  ⟨h.1, h.2.1⟩

/-- C2: whenever the issue-creation POST returns a non-success status,
both handlers return 502 with the `github_request_failed` error carrying
the upstream body text, and perform neither the transition step nor the
notification step. -/
theorem c2_create_failure_aborts (env : OrchEnv)
    (hm : env.method = ("POST").toList)
    (hs : secretMismatch env.providedSecret env.webhookSecret = false)
    (hk : jsTruthy env.issueKey = true)
    (hsum : jsTruthy env.summary = true)
    (hr : jsTruthy env.repo = true)
    (hnodup : ¬(env.searchOk = true ∧ 0 < env.searchTotalCount))
    (hgh : env.ghOk = false) :
    ((jiraOrchestrator env).1 = .githubRequestFailed env.ghErrorText
      ∧ (jiraOrchestrator env).1.statusCode = 502
      ∧ (jiraOrchestrator env).2.attemptedTransition = false
      ∧ (jiraOrchestrator env).2.postedComment = false)
    ∧ ((jiraResearchOrchestrator env).1 = .githubRequestFailed env.ghErrorText
      ∧ (jiraResearchOrchestrator env).1.statusCode = 502
      ∧ (jiraResearchOrchestrator env).2.attemptedTransition = false
      ∧ (jiraResearchOrchestrator env).2.postedComment = false) := by
  simp [jiraOrchestrator, jiraResearchOrchestrator, hm, hs, hk, hsum, hr, hnodup, hgh,
    Resp.statusCode]

/-- Witness for C2 at a concrete environment whose creation POST fails. -/
theorem c2_witness :
    (jiraOrchestrator envC2).1 = .githubRequestFailed (("boom").toList)
      ∧ (jiraOrchestrator envC2).2.attemptedTransition = false :=
  let h := c2_create_failure_aborts envC2 rfl rfl rfl rfl rfl (by decide) rfl
  ⟨h.1.1, h.1.2.2.1⟩

/-- C3: when creation succeeds, the implementation handler attempts the
transition lookup; if no available transition name contains any of the
five fragments, the response embeds a non-success `jira_transition` that
carries the full list of available names, while the response itself is
still an overall success; and no transition outcome whatsoever changes
the success status of the response. -/
theorem c3_transition_is_advisory (env : OrchEnv)
    (hm : env.method = ("POST").toList)
    (hs : secretMismatch env.providedSecret env.webhookSecret = false)
    (hk : jsTruthy env.issueKey = true)
    (hsum : jsTruthy env.summary = true)
    (hr : jsTruthy env.repo = true)
    (hnodup : ¬(env.searchOk = true ∧ 0 < env.searchTotalCount))
    (hgh : env.ghOk = true)
    (hthrow : env.tEnv.throwsEx = false)
    (hfetch : env.tEnv.fetchOk = true)
    (hnomatch : ∀ t ∈ env.tEnv.transitions, matchesAnyFragment targetNamesImpl t = false) :
    ((jiraOrchestrator env).2.attemptedTransition = true
      ∧ (jiraOrchestrator env).1
        = .implSuccess env.ghIssueNumber env.ghIssueUrl
            (.notFound (env.tEnv.transitions.map fun t => t.name))
      ∧ TransitionResult.isSuccess
          (.notFound (env.tEnv.transitions.map fun t => t.name)) = false
      ∧ (jiraOrchestrator env).1.okField = some true
      ∧ (jiraOrchestrator env).1.statusCode = 200)
    ∧ (∀ tEnv' : TransitionEnv,
        (jiraOrchestrator { env with tEnv := tEnv' }).1.okField = some true
        ∧ (jiraOrchestrator { env with tEnv := tEnv' }).1.statusCode = 200) := by
  have hfind : matchTransition targetNamesImpl env.tEnv.transitions = none := by
    rw [matchTransition, List.find?_eq_none]
    intro t ht
    simp [hnomatch t ht]
  have htr : transitionJiraIssue env.tEnv targetNamesImpl
      = .notFound (env.tEnv.transitions.map fun t => t.name) := by
    simp [transitionJiraIssue, hthrow, hfetch, hfind]
  constructor
  · simp [jiraOrchestrator, hm, hs, hk, hsum, hr, hnodup, hgh, htr,
      Resp.okField, Resp.statusCode, TransitionResult.isSuccess]
  · intro tEnv'
    simp [jiraOrchestrator, hm, hs, hk, hsum, hr, hnodup, hgh,
      Resp.okField, Resp.statusCode]

/-- Witness for C3 at a concrete environment whose only transition is
named "To Do", which matches no fragment. -/
theorem c3_witness :
    (jiraOrchestrator envOkBase).1
        = .implSuccess 5 (("https://github.com/acme/web/issues/5").toList)
            (.notFound [("To Do").toList])
      ∧ (jiraOrchestrator envOkBase).1.okField = some true :=
  let h := c3_transition_is_advisory envOkBase rfl rfl rfl rfl rfl (by decide)
    rfl rfl rfl (by decide)
  ⟨h.1.2.1, h.1.2.2.2.1⟩

/-- C4 counterexample: a request carrying an `x-webhook-secret` header
whose (empty) value differs from the configured secret is not rejected
with 401; JavaScript truthiness makes the handler treat an empty header
value like an absent one, and the run proceeds to a 200 response. -/
theorem c4_counterexample :
    envC4x.providedSecret = some []
      ∧ ¬([] : Str) = envC4x.webhookSecret
      ∧ ¬(jiraOrchestrator envC4x).1 = Resp.invalidSecret
      ∧ (jiraOrchestrator envC4x).1.statusCode = 200 := by decide

/-- C4 amended: a request carrying a nonempty `x-webhook-secret` header
value that differs from the configured secret is rejected with 401
`invalid_secret`; a request without the header (or with an empty header
value) skips the secret check, behaving exactly as one carrying the
correct secret. -/
theorem c4_secret_check_optional :
    (∀ (env : OrchEnv) (s : Str),
        env.method = ("POST").toList
        → env.providedSecret = some s
        → ¬s = []
        → ¬s = env.webhookSecret
        → (jiraOrchestrator env).1 = .invalidSecret
          ∧ (jiraOrchestrator env).1.statusCode = 401
          ∧ (jiraResearchOrchestrator env).1 = .invalidSecret)
    ∧ (∀ env : OrchEnv,
        env.providedSecret = none
        → jiraOrchestrator env
            = jiraOrchestrator { env with providedSecret := some env.webhookSecret }
          ∧ jiraResearchOrchestrator env
            = jiraResearchOrchestrator { env with providedSecret := some env.webhookSecret })
    ∧ (∀ env : OrchEnv,
        env.providedSecret = some []
        → jiraOrchestrator env
            = jiraOrchestrator { env with providedSecret := some env.webhookSecret }
          ∧ jiraResearchOrchestrator env
            = jiraResearchOrchestrator { env with providedSecret := some env.webhookSecret }) := by
  refine ⟨fun env s hm hps hne hnm => ?_, fun env hps => ?_, fun env hps => ?_⟩
  · have hsm : secretMismatch env.providedSecret env.webhookSecret = true := by
      rw [hps]
      simp [secretMismatch, hne, hnm]
    constructor
    · simp [jiraOrchestrator, hm, hsm]
    constructor
    · simp [jiraOrchestrator, hm, hsm, Resp.statusCode]
    · simp [jiraResearchOrchestrator, hm, hsm]
  · constructor
    · simp [jiraOrchestrator, hps, secretMismatch]
    · simp [jiraResearchOrchestrator, hps, secretMismatch]
  · constructor
    · simp [jiraOrchestrator, hps, secretMismatch]
    · simp [jiraResearchOrchestrator, hps, secretMismatch]

/-- Witness for the amended C4: a concrete wrong nonempty header is
rejected, a concrete absent header behaves like the correct one, and a
concrete empty header behaves like the correct one in both handlers. -/
theorem c4_witness :
    (jiraOrchestrator envC4w).1 = Resp.invalidSecret
      ∧ jiraOrchestrator envOkBase
        = jiraOrchestrator { envOkBase with providedSecret := some envOkBase.webhookSecret }
      ∧ jiraOrchestrator envC4x
        = jiraOrchestrator { envC4x with providedSecret := some envC4x.webhookSecret }
      ∧ jiraResearchOrchestrator envC4x
        = jiraResearchOrchestrator { envC4x with providedSecret := some envC4x.webhookSecret } :=
  ⟨(c4_secret_check_optional.1 envC4w (("wrong").toList) rfl rfl
      (by decide) (by decide)).1,
   (c4_secret_check_optional.2.1 envOkBase rfl).1,
   (c4_secret_check_optional.2.2 envC4x rfl).1,
   (c4_secret_check_optional.2.2 envC4x rfl).2⟩

/-- C5: when the request body lacks `issueKey`, `summary` or `repo`, both
handlers return 400 with the `missing_fields` error naming exactly the
three required fields, and perform no outbound call at all. -/
theorem c5_missing_fields_rejected (env : OrchEnv)
    (hm : env.method = ("POST").toList)
    (hs : secretMismatch env.providedSecret env.webhookSecret = false)
    (hmiss : env.issueKey = none ∨ env.summary = none ∨ env.repo = none) :
    jiraOrchestrator env
        = (.missingFields [("issueKey").toList, ("summary").toList, ("repo").toList], {})
      ∧ (jiraOrchestrator env).1.statusCode = 400
      ∧ (jiraOrchestrator env).2.searched = false
      ∧ (jiraOrchestrator env).2.attemptedCreate = false
      ∧ jiraResearchOrchestrator env
        = (.missingFields [("issueKey").toList, ("summary").toList, ("repo").toList], {})
      ∧ (jiraResearchOrchestrator env).2.searched = false := by
  have hc : (!jsTruthy env.issueKey || !jsTruthy env.summary || !jsTruthy env.repo) = true := by
    rcases hmiss with h | h | h <;> simp [h, jsTruthy]
  simp [jiraOrchestrator, jiraResearchOrchestrator, hm, hs, hc, Resp.statusCode]

/-- Witness for C5 at a concrete request body lacking `summary`. -/
theorem c5_witness :
    jiraOrchestrator envC5
        = (.missingFields [("issueKey").toList, ("summary").toList, ("repo").toList], {})
      ∧ (jiraOrchestrator envC5).2.searched = false :=
  let h := c5_missing_fields_rejected envC5 rfl rfl (Or.inr (Or.inl rfl))
  ⟨h.1, h.2.2.1⟩

/-- C6: the comment preview of a body text longer than 1000 characters is
exactly its first 1000 characters followed by the single ellipsis
character (giving 1001 characters in all), and a body text of at most
1000 characters is rendered unchanged. -/
theorem c6_preview_truncation (b : Str) :
    (1000 < b.length
      → previewOf b = b.take 1000 ++ ['…'] ∧ (previewOf b).length = 1001)
    ∧ (b.length ≤ 1000 → previewOf b = b) := by
  constructor
  · intro h
    refine ⟨by simp [previewOf, h], ?_⟩
    simp [previewOf, h, List.length_take]
    omega
  · intro h
    simp [previewOf, Nat.not_lt.mpr h]

/-- Witness for C6 at a 1001-character body and a 7-character body. -/
theorem c6_witness :
    previewOf (List.replicate 1001 'a')
        = (List.replicate 1001 'a').take 1000 ++ ['…']
      ∧ previewOf (List.replicate 7 'b') = List.replicate 7 'b' :=
  ⟨((c6_preview_truncation (List.replicate 1001 'a')).1
      (by rw [List.length_replicate]; omega)).1,
   (c6_preview_truncation (List.replicate 7 'b')).2
      (by rw [List.length_replicate]; omega)⟩

/-- C7 counterexample: the selected transition depends on the order in
which the transitions API lists them, and is not determined by the first
matching fragment: "in progress", the first fragment, matches
"In Progress", yet when "Begin work" is listed first the helper selects
"Begin work". -/
theorem c7_counterexample :
    matchTransition targetNamesImpl [tBegin, tInProgress] = some tBegin
      ∧ matchTransition targetNamesImpl [tInProgress, tBegin] = some tInProgress
      ∧ includes (lowerStr tInProgress.name) (lowerStr (("in progress").toList)) = true
      ∧ ¬tBegin = tInProgress := by decide

/-- C7 amended: the helper iterates the available transitions in the order
the transitions API lists them and selects the first transition whose
name case-insensitively contains at least one fragment; fragment priority
plays no role. -/
theorem c7_first_listed_transition_wins
    (frags : List Str) (ts : List Transition) (t : Transition) :
    matchTransition frags ts = some t
      ↔ matchesAnyFragment frags t = true
        ∧ ∃ pre post, ts = pre ++ t :: post
            ∧ ∀ u ∈ pre, matchesAnyFragment frags u = false := by
  rw [matchTransition, List.find?_eq_some]
  simp

/-- Witness for the amended C7 at a concrete one-element list. -/
theorem c7_witness :
    matchTransition targetNamesImpl [tInProgress] = some tInProgress :=
  (c7_first_listed_transition_wins targetNamesImpl [tInProgress] tInProgress).mpr
    ⟨by decide, [], [], rfl, by simp⟩

/-- C8 counterexample: the two dedup checks are not independent in both
directions: an existing open research-flow issue (labelled `ai-research`)
matches the implementation-flow dedup query, which filters only by key
text, repository and issue type, so the implementation handler skips
creation because of it. -/
theorem c8_counterexample :
    matchesImplSearch researchIssueEx = true
      ∧ researchIssueEx.labels.contains (("ai-research").toList) = true
      ∧ (jiraOrchestrator envC8x).1 = .skippedExists (("issue_exists").toList) 42
      ∧ (jiraOrchestrator envC8x).2.attemptedCreate = false := by decide

/-- C8 amended: the independence holds in one direction only: an issue
without the `ai-research` label never matches the research-flow dedup
query, so when every existing issue lacks that label the research handler
proceeds to creation; the implementation-flow query, by contrast, has no
label filter at all. -/
theorem c8_research_dedup_scoped :
    (∀ i : HostedIssue,
        i.labels.contains (("ai-research").toList) = false
        → matchesResearchSearch i = false)
    ∧ (∀ (env : OrchEnv) (world : List HostedIssue),
        env.method = ("POST").toList
        → secretMismatch env.providedSecret env.webhookSecret = false
        → jsTruthy env.issueKey = true
        → jsTruthy env.summary = true
        → jsTruthy env.repo = true
        → (∀ i ∈ world, i.labels.contains (("ai-research").toList) = false)
        → env.searchTotalCount = (world.filter fun i => matchesResearchSearch i).length
        → (jiraResearchOrchestrator env).2.attemptedCreate = true) := by
  have hscoped : ∀ i : HostedIssue,
      i.labels.contains (("ai-research").toList) = false
      → matchesResearchSearch i = false := by
    intro i h
    rw [matchesResearchSearch, h]
    simp
  refine ⟨hscoped, fun env world hm hs hk hsum hr hworld hcount => ?_⟩
  have hnil : (world.filter fun i => matchesResearchSearch i) = [] :=
    List.filter_eq_nil_iff.mpr fun i hi => by simp [hscoped i (hworld i hi)]
  have hzero : env.searchTotalCount = 0 := by rw [hcount, hnil]; rfl
  cases hgh : env.ghOk <;>
    simp [jiraResearchOrchestrator, hm, hs, hk, hsum, hr, hzero, hgh]

/-- Witness for the amended C8: a concrete implementation-flow issue does
not match the research dedup query, and the research handler still
creates its issue when only such issues exist. -/
theorem c8_witness :
    matchesResearchSearch implIssueEx = false
      ∧ (jiraResearchOrchestrator envOkBase).2.attemptedCreate = true :=
  ⟨c8_research_dedup_scoped.1 implIssueEx (by decide),
   c8_research_dedup_scoped.2 envOkBase [implIssueEx] rfl rfl rfl rfl rfl
     (by decide) (by decide)⟩

/-- C9: when the comment fetch fails with a non-success status or throws,
the implementation handler still composes the issue body, its comments
section is the `_No comments_` placeholder (so the body contains that
literal), and the run still ends in an overall-success response. -/
theorem c9_comment_failure_degrades (env : OrchEnv)
    (hm : env.method = ("POST").toList)
    (hs : secretMismatch env.providedSecret env.webhookSecret = false)
    (hk : jsTruthy env.issueKey = true)
    (hsum : jsTruthy env.summary = true)
    (hr : jsTruthy env.repo = true)
    (hnodup : ¬(env.searchOk = true ∧ 0 < env.searchTotalCount))
    (hgh : env.ghOk = true)
    (hfail : (∃ m, env.commentFetch = CommentFetchOutcome.throws m)
      ∨ (∃ st cs, env.commentFetch = CommentFetchOutcome.responds false st cs)) :
    (jiraOrchestrator env).2.createdBody
        = some (composeImplBody env.description (("_No comments_").toList)
            (jiraBrowseUrl env.jiraBase (env.issueKey.getD [])))
      ∧ includes
          (composeImplBody env.description (("_No comments_").toList)
            (jiraBrowseUrl env.jiraBase (env.issueKey.getD [])))
          (("_No comments_").toList) = true
      ∧ (jiraOrchestrator env).1.okField = some true
      ∧ (jiraOrchestrator env).1.statusCode = 200 := by
  have hcm : commentsMarkdownOf env.commentFetch = ("_No comments_").toList := by
    rcases hfail with ⟨m, hf⟩ | ⟨st, cs, hf⟩ <;> rw [hf] <;> rfl
  refine ⟨?_, ?_, ?_, ?_⟩
  · simp [jiraOrchestrator, hm, hs, hk, hsum, hr, hnodup, hgh, hcm]
  · obtain ⟨pre, post, hb⟩ := composeImplBody_parts env.description
      (("_No comments_").toList) (jiraBrowseUrl env.jiraBase (env.issueKey.getD []))
    rw [hb]
    exact includes_around _ _ _
  · simp [jiraOrchestrator, hm, hs, hk, hsum, hr, hnodup, hgh, Resp.okField]
  · simp [jiraOrchestrator, hm, hs, hk, hsum, hr, hnodup, hgh, Resp.statusCode]

/-- Witness for C9 at a concrete environment whose comment fetch returns
HTTP 500. -/
theorem c9_witness :
    (jiraOrchestrator envC9).2.createdBody
        = some (composeImplBody envC9.description (("_No comments_").toList)
            (jiraBrowseUrl envC9.jiraBase (envC9.issueKey.getD [])))
      ∧ (jiraOrchestrator envC9).1.statusCode = 200 :=
  let h := c9_comment_failure_degrades envC9 rfl rfl rfl rfl rfl (by decide) rfl
    (Or.inr ⟨500, [], rfl⟩)
  ⟨h.1, h.2.2.2⟩

/-- C10 counterexample: the round-trip fails for a ticket key that itself
contains the separator `": "`: the split recovers a shorter key and a
longer summary than the ones composed. -/
theorem c10_counterexample :
    splitColonSpace (implTitle (("A: B").toList) (("fix").toList))
        = some ((("A").toList), (("B: fix").toList))
      ∧ ¬((("A").toList, (("B: fix").toList))
          = ((("A: B").toList), (("fix").toList))) := by decide

/-- C10 amended: for every ticketKey that does not contain the separator
`": "` (true of real ticket keys) and every summary, splitting the
composed title on its first `": "` recovers the ticketKey and the
summary, the research variant recovering the summary with the
"[AI Research] " tag prepended. -/
theorem c10_title_roundtrip (k s : Str) (h : hasColonSpace k = false) :
    splitColonSpace (implTitle k s) = some (k, s)
      ∧ splitColonSpace (researchTitle k s)
        = some (k, ("[AI Research] ").toList ++ s) := by
  constructor
  · have h1 : implTitle k s = k ++ ':' :: ' ' :: s := by
      rw [implTitle, List.append_assoc]
      rfl
    rw [h1]
    exact splitColonSpace_append k s h
  · have h2 : researchTitle k s
        = k ++ ':' :: ' ' :: (("[AI Research] ").toList ++ s) := by
      rw [researchTitle, List.append_assoc]
      rfl
    rw [h2]
    exact splitColonSpace_append k _ h

/-- Witness for the amended C10 at a concrete key and summary. -/
theorem c10_witness :
    splitColonSpace (implTitle (("SCRUM-7").toList) (("Add login").toList))
        = some ((("SCRUM-7").toList), (("Add login").toList))
      ∧ splitColonSpace (researchTitle (("SCRUM-7").toList) (("Add login").toList))
        = some ((("SCRUM-7").toList), (("[AI Research] Add login").toList)) :=
  let h := c10_title_roundtrip (("SCRUM-7").toList) (("Add login").toList) (by decide)
  ⟨h.1, h.2⟩
